import Mathlib

/-!
naam: a shallow embedding of the tape/dispatch core

This file embeds, in Lean, the tape-encoding, addressing and dispatch core of
the `naam` crate ("Nox's Abstract Abstract Machine") and proves the frozen
claims about it.

Correspondence with the source:

* `wordSize`, `Layout`      — machine-word layout data of `Instruction<Op>`
                              records (`core::mem::{size_of, align_of}`), with
                              the layout invariants the Rust compiler
                              guarantees (size is a multiple of the alignment;
                              the alignment of a record containing a `usize`
                              field is a positive multiple of the word size).
* `Cell`, tape              — the tape is `Vec<MaybeUninit<usize>>`
                              (src/tape.rs); we model each word either as the
                              first word of an instruction record (the word
                              holding its `DispatchToken`, which together with
                              the following payload words determines the whole
                              `Instruction<Op>` value written by `ptr::write`
                              in `Builder::emit`) or as an interior payload
                              word of the preceding record.
* `Op`                      — the universe of operations: the two built-ins of
                              src/builtins.rs plus application-supplied
                              operations `App` with semantics `AppSem`.
* `execOp`                  — `Execute::execute` (src/builtins.rs for the
                              built-ins, `AppSem.exec` for application ops):
                              given the program counter, the runner's tape and
                              the mutable state, it yields `Ok(next address)`,
                              `Err(Halt)`, or aborts (`panic!`).  The mutable
                              state `Ram` stands for everything behind the
                              `&mut` borrows handed to `execute` (the ram/env
                              pair of src/cpu.rs).
* `VecWriter.take`          — `<Vec<MaybeUninit<usize>> as Writer>::take`
                              (src/tape.rs lines 55-63).
* `Builder.emit`            — `Builder::emit` (src/builder.rs lines 50-74):
                              the over-alignment check that panics, the
                              fallible `take`, the `ptr::write` of the record,
                              and the debug-info push of the word offset.
* `Builder.offset`          — `Builder::offset` (src/builder.rs lines 80-89):
                              the write cursor scaled to bytes by
                              `wrapping_mul(size_of::<usize>())`, as an
                              `Offset` scoped to this build session.
* `Runner.resolve_offset`   — `Runner::resolve_offset` (src/lib.rs lines
                              199-211): the word of the tape at the offset's
                              word position, with its `debug_assert!` bounds
                              check modelled by `Runner.debugAssert`.
* `DirectThreadedLoop.dispatch`, `DirectThreadedCall.dispatch`,
  `DirectThreadedCall.exec` — the two CPUs of src/cpu.rs.  The dispatch token
                              stored in an instruction's first word is the
                              CPU's per-operation-type `exec` wrapper
                              (src/cpu.rs lines 138-153 and 212-227); since
                              `Builder::emit` always pairs that token with a
                              value of the very operation type it was produced
                              for (src/builder.rs lines 55-58), reading the
                              token at an address and calling it is exactly
                              running `Op::execute` on the record that starts
                              there, which is how `fetchToken` models the
                              token read `addr.token()` plus the transmute.
                              Execution may diverge, so both CPUs are indexed
                              by fuel; one unit of fuel is one dispatched
                              instruction, and running out of fuel is the
                              `outOfFuel` outcome.
* `Program.new`             — `Program::new` (src/program.rs lines 34-59):
                              clear the tape, run the build closure, append
                              the `Unreachable` sentinel, keep the debug info.
* `Program.run`             — `Program::run` (src/program.rs lines 61-76):
                              dispatch from the first word of the tape with a
                              fresh runner; it takes `&self`, so it returns
                              the program component unchanged alongside the
                              outcome.
* `SayOp`, `saySem`         — the operations of examples/say-it-thrice.rs
                              (`JumpNTimes`, `Return`) over its ram.
-/

namespace Naam

/-- Size in bytes of a machine word (`mem::size_of::<usize>()` on the 64-bit
target the crate is built for). -/
def wordSize : Nat := 8

/-- Layout of an `Instruction<Op>` record: its `size_of` and `align_of`,
together with the layout facts the Rust compiler guarantees for any such
record: the alignment is positive, it divides the size, and — because the
record's first field is the word-sized `DispatchToken` and alignments are
powers of two — the word size divides the alignment and the record is at
least one word big. -/
structure Layout where
  size : Nat
  align : Nat
  align_pos : 0 < align
  align_dvd_size : align ∣ size
  word_dvd_align : wordSize ∣ align
  word_le_size : wordSize ≤ size

/-- The `size_in_words` of `Builder::emit`: `size_of_val(&instruction) /
mem::size_of::<usize>()`. -/
def Layout.instrWords (l : Layout) : Nat := l.size / wordSize

/-- Layout of `Instruction<Nop>` and `Instruction<Unreachable>`: both
operations are zero-sized, so the record is exactly the one-word token. -/
def unitLayout : Layout where
  size := wordSize
  align := wordSize
  align_pos := by decide
  align_dvd_size := Dvd.intro 1 rfl
  word_dvd_align := Dvd.intro 1 rfl
  word_le_size := Nat.le_refl wordSize

/-- The operations that can be written on a tape: the two built-ins of
src/builtins.rs, always available, plus the application-supplied operation
types `App`. -/
inductive Op (App : Type) where
  | nop
  | unreachable
  | app (a : App)
deriving DecidableEq

/-- One machine word of the tape.  `inst op` is the first word of the
instruction record for `op` — the word holding its `DispatchToken`, from
which the whole record written by `ptr::write` is recovered — and `pad` is
an interior payload word of the record that starts at the nearest `inst`
word before it. -/
inductive Cell (App : Type) where
  | inst (op : Op App)
  | pad
deriving DecidableEq

/-- Model of `Offset` (src/lib.rs lines 310-315): a tape-relative position
captured by the builder during emission.  `Builder::offset` (src/builder.rs
lines 80-89) produces `value` in bytes, while `Runner::resolve_offset`
(src/lib.rs lines 199-211) consumes it as a word index. -/
structure Offset where
  value : Nat
deriving DecidableEq

/-- Model of `Addr` (src/cpu.rs lines 87-92): a resolved position of some instruction
start inside a specific tape; `index` is the word index of the word holding
that instruction's `DispatchToken`. -/
structure Addr where
  index : Nat
deriving DecidableEq

/-- The outcome of one `Execute::execute` call: `Ok(addr)` to continue at
`addr`, `Err(Halt)` to stop the run, or a `panic!` abort. -/
inductive ExecOut (Ram : Type) where
  | next (addr : Nat) (ram : Ram)
  | halt (ram : Ram)
  | panic
deriving DecidableEq

/-- Semantics of the application-supplied operation types: the layout of each
operation's `Instruction` record and its `Execute::execute` body, which
receives its own word position (the `Pc`), the executing tape (through the
`Runner`) and the mutable state. -/
structure AppSem (App Ram : Type) where
  layout : App → Layout
  exec : App → Nat → List (Cell App) → Ram → ExecOut Ram

variable {App Ram E : Type}

/-- Layout of `Instruction<Op>` for every operation of the universe. -/
def Op.layout (sem : AppSem App Ram) : Op App → Layout
  | .nop => unitLayout
  | .unreachable => unitLayout
  | .app a => sem.layout a

/-- Number of words of an operation's instruction record. -/
def Op.instrWords (sem : AppSem App Ram) (op : Op App) : Nat :=
  (Op.layout sem op).instrWords

/-- Model of `Pc::next` (src/lib.rs lines 251-260): the address one whole instruction
record past the current one. -/
def Pc.next (sem : AppSem App Ram) (op : Op App) (pc : Nat) : Nat :=
  pc + Op.instrWords sem op

/-- Model of `Runner` (src/lib.rs lines 189-197): the per-run capability, bound to the
executing tape. -/
structure Runner (App : Type) where
  tape : List (Cell App)

/-- Model of `Runner::resolve_offset` (src/lib.rs lines 199-211): the address of the
tape word at the offset's word position. -/
def Runner.resolve_offset (r : Runner App) (o : Offset) : Addr :=
  ⟨o.value⟩

/-- The `debug_assert!(offset.value < self.tape.len())` of
`Runner::resolve_offset` (src/lib.rs line 202), as checked in debug
configurations. -/
def Runner.debugAssert (r : Runner App) (o : Offset) : Prop :=
  o.value < r.tape.length

instance (r : Runner App) (o : Offset) : Decidable (Runner.debugAssert r o) :=
  inferInstanceAs (Decidable (o.value < r.tape.length))

/-- Model of `Execute::execute` for the whole operation universe: the built-ins follow
src/builtins.rs (`Nop` continues at `pc.next()`, `Unreachable` panics), and
application operations follow their `AppSem`. -/
def execOp (sem : AppSem App Ram) :
    Op App → Nat → List (Cell App) → Ram → ExecOut Ram
  | .nop, pc, _, ram => .next (Pc.next sem .nop pc) ram
  | .unreachable, _, _, _ => .panic
  | .app a, pc, tape, ram => sem.exec a pc tape ram

/-- Model of `UnexpectedEndError` (src/tape.rs line 36). -/
structure UnexpectedEndError where
deriving DecidableEq

/-- Model of `Vec`-writer `take` (src/tape.rs lines 55-63):
reserve `n` more words, extend the length, and hand back the `n` fresh
uninitialized words; with the built-in `Vec` provider this always succeeds. -/
def VecWriter.take (ws : List (Cell App)) (n : Nat) :
    Except UnexpectedEndError (List (Cell App)) :=
  .ok (ws ++ List.replicate n .pad)

/-- The builder's state: the words written so far (the cleared `Vec` writer,
whose `word_offset` is its length) and the word offsets pushed into the
debug info, one per emitted instruction. -/
structure BuilderState (App : Type) where
  words : List (Cell App)
  debugInfo : List Nat
deriving DecidableEq

/-- The builder over the freshly cleared tape (`as_cleared_writer`,
src/tape.rs lines 41-44, and `DebugInfo::default`). -/
def BuilderState.empty : BuilderState App := ⟨[], []⟩

/-- The words `ptr::write` leaves on the tape for one instruction record: the
token word followed by the record's interior payload words. -/
def instCells (sem : AppSem App Ram) (op : Op App) : List (Cell App) :=
  .inst op :: List.replicate (Op.instrWords sem op - 1) .pad

/-- Result of `Builder::emit`: success, the recoverable
`Err(UnexpectedEndError)`, or the fatal over-alignment `panic!`. -/
inductive EmitResult (App : Type) where
  | ok (b : BuilderState App)
  | endError
  | panic
deriving DecidableEq

/-- Model of `Builder::emit` (src/builder.rs lines 50-74), over the built-in `Vec`
writer: panic if the instruction record's alignment differs from the word
size; otherwise capture the debug-info word offset, `take` the record's words
from the writer (propagating `UnexpectedEndError`), and `ptr::write` the
record into them. -/
def Builder.emit (sem : AppSem App Ram) (b : BuilderState App) (op : Op App) :
    EmitResult App :=
  if (Op.layout sem op).align ≠ wordSize then
    .panic
  else
    match VecWriter.take b.words (Op.instrWords sem op) with
    | .error _ => .endError
    | .ok _ => .ok ⟨b.words ++ instCells sem op, b.debugInfo ++ [b.words.length]⟩

/-- Model of `Builder::offset` (src/builder.rs lines 80-89): the writer's
word cursor scaled to bytes by `wrapping_mul(mem::size_of::<usize>())` —
`usize` multiplication modulo 2^64 — as an `Offset` scoped to this build
session.  Note the unit mismatch with `Runner::resolve_offset` (src/lib.rs
lines 199-211), which indexes the tape by `offset.value` in words: the two
functions agree only at offset zero. -/
def Builder.offset (b : BuilderState App) : Offset :=
  ⟨b.words.length * wordSize % 2 ^ 64⟩

/-- Outcome of one run: reached `Halt`, aborted by a `panic!`, dispatched a
word that is not an instruction start (undefined behavior in the source,
prevented there by the address scoping discipline), or ran out of fuel. -/
inductive RunOutcome (Ram : Type) where
  | halted (ram : Ram)
  | panicked
  | stuck
  | outOfFuel
deriving DecidableEq

/-- Reading the `DispatchToken` at a word of the tape (`addr.token()`,
src/cpu.rs lines 96-99) and reinterpreting it as the CPU's `exec` wrapper for
the operation type whose record starts there: defined exactly when the word
is an instruction-start word, in which case dispatching it runs that
operation. -/
def fetchToken (tape : List (Cell App)) (addr : Nat) : Option (Op App) :=
  match tape[addr]? with
  | some (.inst op) => some op
  | _ => none

/-- Model of `DirectThreadedLoop::dispatch` (src/cpu.rs lines 157-179): keep a single
current address; each iteration reads the token at it, calls the wrapper it
denotes (which runs `Op::execute`, src/cpu.rs lines 138-153), then either
moves the current address to the returned `Ok` address or returns on
`Err(Halt)`. -/
def DirectThreadedLoop.dispatch (sem : AppSem App Ram) :
    Nat → List (Cell App) → Nat → Ram → RunOutcome Ram
  | 0, _, _, _ => .outOfFuel
  | fuel + 1, tape, addr, ram =>
    match fetchToken tape addr with
    | none => .stuck
    | some op =>
      match execOp sem op addr tape ram with
      | .next a ram2 => DirectThreadedLoop.dispatch sem fuel tape a ram2
      | .halt ram2 => .halted ram2
      | .panic => .panicked

mutual

/-- The per-operation `exec` wrapper of `DirectThreadedCall` (src/cpu.rs
lines 212-225): run `Op::execute`; on `Ok(addr)` it itself dispatches the
next instruction, on `Err(Halt)` it simply returns. -/
def DirectThreadedCall.exec (sem : AppSem App Ram) (fuel : Nat) (op : Op App)
    (addr : Nat) (tape : List (Cell App)) (ram : Ram) : RunOutcome Ram :=
  match execOp sem op addr tape ram with
  | .next a ram2 => DirectThreadedCall.dispatch sem fuel tape a ram2
  | .halt ram2 => .halted ram2
  | .panic => .panicked
termination_by 2 * fuel + 1

/-- Model of `DirectThreadedCall::dispatch` (src/cpu.rs lines 236-246): read the token
at the address and call the wrapper it denotes, exactly once; all further
control flow happens inside the wrappers. -/
def DirectThreadedCall.dispatch (sem : AppSem App Ram) (fuel : Nat)
    (tape : List (Cell App)) (addr : Nat) (ram : Ram) : RunOutcome Ram :=
  match fuel with
  | 0 => .outOfFuel
  | f + 1 =>
    match fetchToken tape addr with
    | none => .stuck
    | some op => DirectThreadedCall.exec sem f op addr tape ram
termination_by 2 * fuel

end

/-- The two dispatch strategies shipped by src/cpu.rs. -/
inductive CpuKind where
  | directThreadedLoop
  | directThreadedCall
deriving DecidableEq

/-- Model of `Dispatch::dispatch` of whichever CPU the program was built with. -/
def CpuKind.dispatch (sem : AppSem App Ram) :
    CpuKind → Nat → List (Cell App) → Nat → Ram → RunOutcome Ram
  | .directThreadedLoop => DirectThreadedLoop.dispatch sem
  | .directThreadedCall => DirectThreadedCall.dispatch sem

/-- Model of `Program` (src/program.rs lines 17-27): the built tape, the CPU it was
built for, and the recorded debug info.  (The `code` field, the borrowed
build closure, plays no part in execution and is not modelled.) -/
structure Program (App : Type) where
  cpu : CpuKind
  tape : List (Cell App)
  debugInfo : List Nat
deriving DecidableEq

/-- Result of the build closure handed to `Program::new`: success, the
closure's own error `E` (with `E: From<UnexpectedEndError>`), or a panic
propagated out of `emit`. -/
inductive BuildOut (App E : Type) where
  | ok (b : BuilderState App)
  | err (e : E)
  | panic
deriving DecidableEq

/-- Result of `Program::new`. -/
inductive NewOut (App E : Type) where
  | ok (p : Program App)
  | err (e : E)
  | panic
deriving DecidableEq

/-- Model of `Program::new` (src/program.rs lines 34-59): make a builder over the
cleared tape, run the build closure (propagating its error), emit the
`Unreachable` sentinel through the same fallible `emit` (its
`UnexpectedEndError` converted into `E`), and assemble the program. -/
def Program.new (sem : AppSem App Ram) (cpu : CpuKind)
    (fromEnd : UnexpectedEndError → E)
    (build : BuilderState App → BuildOut App E) : NewOut App E :=
  match build BuilderState.empty with
  | .panic => .panic
  | .err e => .err e
  | .ok b =>
    match Builder.emit sem b .unreachable with
    | .panic => .panic
    | .endError => .err (fromEnd ⟨⟩)
    | .ok b2 => .ok ⟨cpu, b2.words, b2.debugInfo⟩

/-- Model of `Program::run` (src/program.rs lines 61-76): dispatch with the program's
CPU from the first word of its tape, with a fresh runner bound to that tape.
It takes `&self`, so alongside the outcome it hands back the program —
reassembled from the very fields dispatch consulted — unchanged. -/
def Program.run (sem : AppSem App Ram) (p : Program App) (fuel : Nat)
    (ram : Ram) : RunOutcome Ram × Program App :=
  (CpuKind.dispatch sem p.cpu fuel p.tape 0 ram, ⟨p.cpu, p.tape, p.debugInfo⟩)

/-! ## The state-machine reading of execution

Spec §4.3 describes execution as a sequence of states `(Address, environment)`
where each step applies the operation handler at the current address and
either continues at a new state or terminates.  `machineStep` and `iterate`
are that description, written independently of either CPU; claim C5 relates
the loop CPU to this iteration. -/

/-- Result of one step of the §4.3 state machine. -/
inductive StepOut (Ram : Type) where
  | cont (addr : Nat) (ram : Ram)
  | halt (ram : Ram)
  | panic
  | stuck
deriving DecidableEq

/-- One step of the state machine: read the dispatch token at the current
address and invoke the operation handler it denotes. -/
def machineStep (sem : AppSem App Ram) (tape : List (Cell App))
    (addr : Nat) (ram : Ram) : StepOut Ram :=
  match fetchToken tape addr with
  | none => .stuck
  | some op =>
    match execOp sem op addr tape ram with
    | .next a ram2 => .cont a ram2
    | .halt ram2 => .halt ram2
    | .panic => .panic

/-- Iterating the state machine for at most `fuel` steps. -/
def iterate (sem : AppSem App Ram) (tape : List (Cell App)) :
    Nat → Nat → Ram → RunOutcome Ram
  | 0, _, _ => .outOfFuel
  | fuel + 1, addr, ram =>
    match machineStep sem tape addr ram with
    | .cont a ram2 => iterate sem tape fuel a ram2
    | .halt ram2 => .halted ram2
    | .panic => .panicked
    | .stuck => .stuck

/-! ## The operations of examples/say-it-thrice.rs

`JumpNTimes(offset)` jumps to its captured offset as long as the ram's
counter is positive, decrementing it, and falls through once it reaches
zero; `Return(v)` stores `v` in the ram's return value and halts.  Both
records are a token word plus one word-sized payload word (`Offset` and
`usize` respectively), so their `Instruction` layout is two words, word
aligned.  (`PrintLn` plays no part in the claims and is not modelled.) -/

/-- The application operations of examples/say-it-thrice.rs. -/
inductive SayOp where
  | jumpNTimes (target : Offset)
  | ret (v : Nat)
deriving DecidableEq

/-- Model of `SayItNTimesRam` (examples/say-it-thrice.rs lines 48-52). -/
structure SayRam where
  rval : Nat
  counter : Nat
deriving DecidableEq

/-- Layout of `Instruction<JumpNTimes>` and `Instruction<Return>`: one token
word plus one payload word. -/
def twoWordLayout : Layout where
  size := 2 * wordSize
  align := wordSize
  align_pos := by decide
  align_dvd_size := Dvd.intro 2 rfl
  word_dvd_align := Dvd.intro 1 rfl
  word_le_size := by decide

/-- Semantics of the say-it-thrice operations, from their `Execute` impls
(examples/say-it-thrice.rs lines 56-65 and 90-104). -/
def saySem : AppSem SayOp SayRam where
  layout := fun _ => twoWordLayout
  exec := fun a pc tape ram =>
    match a with
    | .jumpNTimes target =>
      if ram.counter > 0 then
        .next (Runner.resolve_offset ⟨tape⟩ target).index
          ⟨ram.rval, ram.counter - 1⟩
      else
        .next (pc + twoWordLayout.instrWords) ram
    | .ret v => .halt ⟨v, ram.counter⟩

/-! ## The round-trip program of claim C6

`[Nop, JumpNTimes(L), Return(v)]` where `L` is the offset the builder
reports just before the `Return` is emitted: `Nop` is one word and the jump
record two, so the write cursor stands at word 3 and `Builder::offset`
(src/builder.rs lines 80-89) reports 3 words scaled to 24 bytes. -/

/-- The jump target `L`: what `Builder::offset` reports just before the
halting instruction is emitted (write cursor at word 3, scaled to bytes). -/
def c6Target : Offset := ⟨24⟩

/-- The build closure of claim C6, written against `Builder::emit` exactly as
`SayItNTimes::build` is (examples/say-it-thrice.rs lines 32-45), minus the
`PrintLn`: emit `Nop`, emit the jump at the captured target, emit the
halting `Return(v)`. -/
def c6Build (v : Nat) (b0 : BuilderState SayOp) :
    BuildOut SayOp UnexpectedEndError :=
  match Builder.emit saySem b0 .nop with
  | .panic => .panic
  | .endError => .err ⟨⟩
  | .ok b1 =>
    match Builder.emit saySem b1 (.app (.jumpNTimes c6Target)) with
    | .panic => .panic
    | .endError => .err ⟨⟩
    | .ok b2 =>
      match Builder.emit saySem b2 (.app (.ret v)) with
      | .panic => .panic
      | .endError => .err ⟨⟩
      | .ok b3 => .ok b3

/-- The program built by the C6 closure through `Program::new`. -/
def c6Program (v : Nat) : NewOut SayOp UnexpectedEndError :=
  Program.new saySem .directThreadedLoop (fun e => e) (c6Build v)

/-- The builder state the C6 closure has produced just before it emits the
halting `Return` instruction. -/
def c6Prefix : BuilderState SayOp :=
  ⟨[.inst .nop, .inst (.app (.jumpNTimes c6Target)), .pad], [0, 1]⟩

/-- The builder state at the end of the C6 closure. -/
def c6Built (v : Nat) : BuilderState SayOp :=
  ⟨[.inst .nop, .inst (.app (.jumpNTimes c6Target)), .pad,
    .inst (.app (.ret v)), .pad], [0, 1, 3]⟩

/-- The finished C6 program: the closure's five words capped by the
`Unreachable` sentinel. -/
def c6Prog (v : Nat) : Program SayOp :=
  ⟨.directThreadedLoop,
   [.inst .nop, .inst (.app (.jumpNTimes c6Target)), .pad,
    .inst (.app (.ret v)), .pad, .inst .unreachable],
   [0, 1, 3, 5]⟩

/-! ## Helper lemmas -/

/-- A call of `Builder::emit` on an instruction record whose alignment is the word size
succeeds and appends exactly that record's cells, recording its word offset
in the debug info. -/
theorem emit_ok_of_align (sem : AppSem App Ram) (b : BuilderState App)
    (op : Op App) (h : (Op.layout sem op).align = wordSize) :
    Builder.emit sem b op
      = .ok ⟨b.words ++ instCells sem op, b.debugInfo ++ [b.words.length]⟩ := by
  simp [Builder.emit, h, VecWriter.take]

/-- Inversion for a successful `Builder::emit`: the new state is the old
words extended with the instruction's cells. -/
theorem emit_ok_inv {sem : AppSem App Ram} {b b2 : BuilderState App}
    {op : Op App} (h : Builder.emit sem b op = .ok b2) :
    b2 = ⟨b.words ++ instCells sem op, b.debugInfo ++ [b.words.length]⟩ := by
  unfold Builder.emit VecWriter.take at h
  split at h
  · exact absurd h (by simp)
  · simpa using h.symm

/-- Emitting the `Unreachable` sentinel always succeeds: its record is the
single word-aligned token word. -/
theorem emit_unreachable_ok (sem : AppSem App Ram) (b : BuilderState App) :
    Builder.emit sem b .unreachable
      = .ok ⟨b.words ++ [.inst .unreachable], b.debugInfo ++ [b.words.length]⟩ := by
  have h := emit_ok_of_align sem b .unreachable rfl
  simpa [instCells, Op.instrWords, Op.layout, unitLayout, Layout.instrWords,
    wordSize] using h

/-- The loop CPU and the tail-call CPU compute the same outcome from any
address, fuel and state: the two recursions unfold identically step for
step. -/
theorem loop_eq_call (sem : AppSem App Ram) :
    ∀ (fuel : Nat) (tape : List (Cell App)) (addr : Nat) (ram : Ram),
      DirectThreadedLoop.dispatch sem fuel tape addr ram
        = DirectThreadedCall.dispatch sem fuel tape addr ram := by
  intro fuel
  induction fuel with
  | zero =>
    intro tape addr ram
    rw [DirectThreadedCall.dispatch]
    rfl
  | succ f ih =>
    intro tape addr ram
    rw [DirectThreadedCall.dispatch]
    simp only [DirectThreadedLoop.dispatch]
    cases hf : fetchToken tape addr with
    | none => rfl
    | some op =>
      dsimp only
      rw [DirectThreadedCall.exec.eq_def]
      cases he : execOp sem op addr tape ram with
      | next a ram2 => simp only [he]; exact ih tape a ram2
      | halt ram2 => simp only [he]
      | panic => simp only [he]

/-! ## The claims -/

/-- C1: for every build closure that returns successfully, `Program::new`
appends exactly one `Unreachable` instruction after the last instruction the
closure emitted, so the built tape ends with the unreachable sentinel; and
executing the `Unreachable` operation always panics, never returning a
continue address or a `Halt` signal. -/
theorem new_appends_unreachable_sentinel (sem : AppSem App Ram)
    (cpu : CpuKind) (fromEnd : UnexpectedEndError → E)
    (build : BuilderState App → BuildOut App E)
    (b : BuilderState App) (p : Program App)
    (hb : build BuilderState.empty = .ok b)
    (hp : Program.new sem cpu fromEnd build = .ok p) :
    p.tape = b.words ++ [Cell.inst .unreachable] ∧
    ∀ (pc : Nat) (tape : List (Cell App)) (ram : Ram),
      execOp sem .unreachable pc tape ram = .panic := by
  refine ⟨?_, fun pc tape ram => rfl⟩
  unfold Program.new at hp
  rw [hb] at hp
  dsimp only at hp
  rw [emit_unreachable_ok sem b] at hp
  dsimp only at hp
  injection hp with h
  rw [← h]

/-- Witness for C1: the C6 build closure, which emits three instructions and
succeeds; the finished tape is those instructions' five words capped by the
one-word `Unreachable` sentinel. -/
theorem new_appends_unreachable_sentinel_witness :
    (c6Prog 0).tape = (c6Built 0).words ++ [Cell.inst .unreachable] ∧
    ∀ (pc : Nat) (tape : List (Cell SayOp)) (ram : SayRam),
      execOp saySem .unreachable pc tape ram = .panic :=
  new_appends_unreachable_sentinel saySem .directThreadedLoop (fun e => e)
    (c6Build 0) (c6Built 0) (c6Prog 0) rfl rfl

/-- The builder state after one `Nop` has been emitted into a fresh session:
the capture point of the C2 failing input, where the write cursor stands at
word 1 and `Builder::offset` reports 8 bytes. -/
def c2State : BuilderState SayOp := ⟨[.inst .nop], [0]⟩

/-- The builder state after the target instruction `Return(7)` has been
emitted at word 1, immediately after the capture. -/
def c2Emitted : BuilderState SayOp :=
  ⟨[.inst .nop, .inst (.app (.ret 7)), .pad], [0, 1]⟩

/-- A tape of that same build session extending the emission: five more
one-word `Nop` records and the `Unreachable` sentinel, nine words in all,
so that word 8 — where the captured offset resolves — exists and holds the
sentinel's token. -/
def c2Tape : List (Cell SayOp) :=
  c2Emitted.words ++
    [.inst .nop, .inst .nop, .inst .nop, .inst .nop, .inst .nop,
     .inst .unreachable]

/-- C2, evaluated at its failing input: the offset captured by
`Builder::offset` (src/builder.rs lines 80-89) immediately before emitting
`I = Return(7)` has value 8 — the write cursor at word 1 scaled to bytes —
while `I`'s token word is tape word 1; `Runner::resolve_offset` (src/lib.rs
lines 199-211) indexes the tape by that byte value, so the returned address
is word 8, where the `Unreachable` sentinel sits, not the start of `I`: a
jump through the offset dispatches the sentinel (a fatal panic) instead of
`I`, and the bounds `debug_assert!` does not catch it.  This contradicts the
claim, the documented `Addr` invariant (src/cpu.rs lines 85-86) and the
repository's own example, which builds its backward jump this way and
asserts the run's result. -/
theorem offset_resolution_word_byte_mismatch :
    Builder.offset c2State = ⟨8⟩ ∧
    Builder.emit saySem c2State (.app (.ret 7)) = .ok c2Emitted ∧
    c2Emitted.words[1]? = some (.inst (.app (.ret 7))) ∧
    (Runner.resolve_offset ⟨c2Tape⟩ (Builder.offset c2State)).index = 8 ∧
    fetchToken c2Tape
      (Runner.resolve_offset ⟨c2Tape⟩ (Builder.offset c2State)).index
      = some .unreachable ∧
    Runner.debugAssert ⟨c2Tape⟩ (Builder.offset c2State) := by
  refine ⟨rfl, ?_, rfl, rfl, rfl, by decide⟩
  rw [emit_ok_of_align saySem c2State (.app (.ret 7)) rfl]
  rfl

/-- C3: an operation type whose `{token, payload}` record has a size that is
not a multiple of the machine word size, or an alignment different from the
machine word size, makes `Builder::emit` abort fatally at its first call —
the result is the panic, never the recoverable error and never a written
record. -/
theorem emit_panics_on_misaligned_op (sem : AppSem App Ram)
    (b : BuilderState App) (a : App)
    (h : ¬ wordSize ∣ (sem.layout a).size ∨ (sem.layout a).align ≠ wordSize) :
    Builder.emit sem b (.app a) = .panic := by
  have halign : (Op.layout sem (.app a)).align ≠ wordSize := by
    rcases h with h | h
    · intro hEq
      exact h (hEq ▸ (sem.layout a).align_dvd_size)
    · exact h
  unfold Builder.emit
  rw [if_pos halign]

/-- An application operation type whose record is over-aligned: a payload
carrying a 16-byte-aligned field (such as a `u128`), making
`Instruction<Op128>` 16 bytes big and 16 bytes aligned. -/
inductive Op128 where
  | op128
deriving DecidableEq

/-- The layout the Rust compiler gives `Instruction<Op128>`. -/
def op128Layout : Layout where
  size := 16
  align := 16
  align_pos := by decide
  align_dvd_size := Dvd.intro 1 rfl
  word_dvd_align := Dvd.intro 2 rfl
  word_le_size := by decide

/-- Semantics for the over-aligned operation (its behavior is irrelevant:
it can never be emitted). -/
def op128Sem : AppSem Op128 Unit where
  layout := fun _ => op128Layout
  exec := fun _ pc _ ram => .next pc ram

/-- Witness for C3: the very first `emit` of the over-aligned operation on a
fresh builder panics. -/
theorem emit_panics_on_misaligned_op_witness :
    Builder.emit op128Sem BuilderState.empty (.app .op128) = .panic :=
  emit_panics_on_misaligned_op op128Sem BuilderState.empty .op128
    (Or.inr (by decide))

/-- C4: executing any program under the tail-dispatch CPU
(`DirectThreadedCall`) produces, for every tape, fuel and initial mutable
state, exactly the same outcome — final environment and ram contents, halt,
panic, or exhaustion — as executing it under the loop CPU
(`DirectThreadedLoop`): the two dispatch strategies are observationally
equivalent. -/
theorem run_loop_eq_run_call (sem : AppSem App Ram) (tape : List (Cell App))
    (dbg : List Nat) (fuel : Nat) (ram : Ram) :
    (Program.run sem ⟨.directThreadedLoop, tape, dbg⟩ fuel ram).1
      = (Program.run sem ⟨.directThreadedCall, tape, dbg⟩ fuel ram).1 := by
  simpa [Program.run, CpuKind.dispatch] using loop_eq_call sem fuel tape 0 ram

/-- C5: `DirectThreadedLoop::dispatch` maintains a single current-address
variable and iterates the §4.3 state-machine step — read the dispatch token
at the current address, invoke the handler it denotes, then continue at the
returned address or exit on the `Halt` signal — which `iterate` expresses
independently of the CPU. -/
theorem loop_dispatch_iterates (sem : AppSem App Ram) (fuel : Nat)
    (tape : List (Cell App)) (addr : Nat) (ram : Ram) :
    DirectThreadedLoop.dispatch sem fuel tape addr ram
      = iterate sem tape fuel addr ram := by
  induction fuel generalizing addr ram with
  | zero => rfl
  | succ f ih =>
    simp only [DirectThreadedLoop.dispatch, iterate, machineStep]
    cases fetchToken tape addr with
    | none => rfl
    | some op =>
      dsimp only
      cases execOp sem op addr tape ram with
      | next a ram2 => exact ih a ram2
      | halt ram2 => rfl
      | panic => rfl

/-- C6, evaluated at its failing input: the tape `[Nop, JumpNTimes(L),
Return(7)]` builds successfully, with `L` exactly what `Builder::offset`
reports just before the halting `Return` is emitted — 24, the word-3 cursor
scaled to bytes (src/builder.rs lines 80-89) — but running with an initial
counter of 1 does not terminate with the environment equal to 7: the jump
hands `L` to `Runner::resolve_offset` (src/lib.rs lines 199-211), which
indexes word 24 of the six-word tape, so the bounds `debug_assert!` fails
and dispatch reads past the tape instead of reaching the `Return`.  (Only
when the counter is 0, so the jump falls through and the offset is never
resolved, does the run halt with 7.) -/
theorem round_trip_jump_resolves_out_of_tape :
    c6Program 7 = .ok (c6Prog 7) ∧
    c6Target = Builder.offset c6Prefix ∧
    (c6Prog 7).tape.length = 6 ∧
    ¬ Runner.debugAssert ⟨(c6Prog 7).tape⟩ c6Target ∧
    (Program.run saySem (c6Prog 7) 5 ⟨0, 1⟩).1 = .stuck ∧
    (Program.run saySem (c6Prog 7) 5 ⟨0, 0⟩).1 = .halted ⟨7, 0⟩ := by
  refine ⟨by decide, by decide, rfl, by decide, by decide, by decide⟩

/-- C7: `run` is deterministic: running the same program twice in succession,
each time on a fresh environment with identical initial contents, yields
identical outcomes; each call dispatches from tape position zero and the
program state consulted by dispatch is unchanged between the calls. -/
theorem run_twice_deterministic (sem : AppSem App Ram) (p : Program App)
    (fuel : Nat) (ram : Ram) :
    (Program.run sem (Program.run sem p fuel ram).2 fuel ram).1
        = (Program.run sem p fuel ram).1 ∧
    (Program.run sem p fuel ram).2 = p ∧
    (Program.run sem p fuel ram).1
        = CpuKind.dispatch sem p.cpu fuel p.tape 0 ram :=
  ⟨rfl, rfl, rfl⟩

/-- C8: `resolve_offset` has the precondition that the offset's word position
lies strictly within the word count of the tape bound to the runner; the
debug-configuration assertion checks exactly that, and under the
precondition the returned address is a word inside the tape bounds. -/
theorem resolve_offset_precondition (r : Runner App) (o : Offset)
    (h : o.value < r.tape.length) :
    Runner.debugAssert r o ∧
    (Runner.resolve_offset r o).index < r.tape.length ∧
    (r.tape[(Runner.resolve_offset r o).index]?).isSome = true := by
  refine ⟨h, h, ?_⟩
  unfold Runner.resolve_offset
  simp [List.getElem?_eq_getElem h]

/-- Witness for C8: a one-word tape and the offset of its only word. -/
theorem resolve_offset_precondition_witness :
    Runner.debugAssert (⟨[Cell.inst .nop]⟩ : Runner SayOp) ⟨0⟩ ∧
    (Runner.resolve_offset (⟨[Cell.inst .nop]⟩ : Runner SayOp) ⟨0⟩).index
        < (⟨[Cell.inst .nop]⟩ : Runner SayOp).tape.length ∧
    ((⟨[Cell.inst .nop]⟩ : Runner SayOp).tape[
        (Runner.resolve_offset (⟨[Cell.inst .nop]⟩ : Runner SayOp)
          ⟨0⟩).index]?).isSome = true :=
  resolve_offset_precondition ⟨[Cell.inst .nop]⟩ ⟨0⟩ (by decide)

/-- C9: `run` mutates only the environment passed to it: the tape's words,
the CPU value and the debug info of the program are identical before and
after the call. -/
theorem run_preserves_program (sem : AppSem App Ram) (p : Program App)
    (fuel : Nat) (ram : Ram) :
    (Program.run sem p fuel ram).2.tape = p.tape ∧
    (Program.run sem p fuel ram).2.cpu = p.cpu ∧
    (Program.run sem p fuel ram).2.debugInfo = p.debugInfo :=
  ⟨rfl, rfl, rfl⟩

/-- C10: with the built-in `Vec<MaybeUninit<usize>>` storage provider,
`Writer::take` returns `Ok` for every requested word count, `Builder::emit`
never returns the recoverable `UnexpectedEndError`, and the
storage-exhaustion error path of `Program::new` is unreachable: a build
closure that succeeds always yields a finished program. -/
theorem vec_writer_take_total (sem : AppSem App Ram) (cpu : CpuKind)
    (fromEnd : UnexpectedEndError → E)
    (build : BuilderState App → BuildOut App E)
    (b : BuilderState App) (hb : build BuilderState.empty = .ok b) :
    (∀ (ws : List (Cell App)) (n : Nat),
        VecWriter.take ws n = .ok (ws ++ List.replicate n .pad)) ∧
    (∀ (b0 : BuilderState App) (op : Op App),
        Builder.emit sem b0 op ≠ .endError) ∧
    Program.new sem cpu fromEnd build
      = .ok ⟨cpu, b.words ++ [Cell.inst .unreachable],
             b.debugInfo ++ [b.words.length]⟩ := by
  refine ⟨fun ws n => rfl, ?_, ?_⟩
  · intro b0 op h
    unfold Builder.emit VecWriter.take at h
    split at h
    · exact absurd h (by simp)
    · exact absurd h (by simp)
  · unfold Program.new
    rw [hb]
    dsimp only
    rw [emit_unreachable_ok sem b]

/-- Witness for C10: the C6 build closure succeeds, and `Program::new` on it
returns the finished program. -/
theorem vec_writer_take_total_witness :
    (∀ (ws : List (Cell SayOp)) (n : Nat),
        VecWriter.take ws n = .ok (ws ++ List.replicate n .pad)) ∧
    (∀ (b0 : BuilderState SayOp) (op : Op SayOp),
        Builder.emit saySem b0 op ≠ .endError) ∧
    Program.new saySem .directThreadedLoop (fun e => e) (c6Build 0)
      = .ok ⟨.directThreadedLoop,
             (c6Built 0).words ++ [Cell.inst .unreachable],
             (c6Built 0).debugInfo ++ [(c6Built 0).words.length]⟩ :=
  vec_writer_take_total saySem .directThreadedLoop (fun e => e)
    (c6Build 0) (c6Built 0) rfl
